import Mathlib

/-!
Shallow embedding of the tree-cadastre analysis helpers
(`src/analysis.py`: `parse_geometry`, `get_epoch`, and the inline
filtering/statistics logic of `main`), together with theorems settling
the specification claims.

Modelling conventions:
* Python runtime values relevant to the helpers are the inductive `PyVal`.
* Python `float` values are `PFloat` (`nan` or a finite value modelled as a
  rational).  Infinities are not modelled: no claim or result below touches
  them.
* Code that can raise is modelled in `Except Unit`; `.error ()` stands for a
  raised exception (`ValueError`/`TypeError`/pandas truth-value errors).
-/

/-- Python runtime values, as far as the analysis helpers inspect them.
`nan` stands for a missing scalar (`float('nan')` / `pd.NA`),
`num` for a finite `int`/`float`, `other` for any object of another type
(dict, set, ...). -/
inductive PyVal where
  | none
  | nan
  | num (q : ℚ)
  | str (s : String)
  | list (l : List PyVal)
  | other

/-- Python float values: NaN or a finite value (modelled exactly as a
rational; the claims below never depend on IEEE rounding, only on which
conversions succeed and on order comparisons). -/
inductive PFloat where
  | nan
  | val (q : ℚ)
deriving DecidableEq, Repr

/-- Numeric value of a list of decimal digit characters. -/
def digitsVal (cs : List Char) : ℕ :=
  cs.foldl (fun a c => 10 * a + (c.toNat - 48)) 0

/-- Parse an unsigned decimal mantissa (`digits`, `digits.digits`,
`digits.`, `.digits`), returning its value and the unconsumed rest;
`none` when no digit is present at all (Python `float` rejects `"."`,
`""`). -/
def parseUnsigned (cs : List Char) : Option (ℚ × List Char) :=
  let intPart := cs.takeWhile Char.isDigit
  let rest := cs.dropWhile Char.isDigit
  match rest with
  | '.' :: rest2 =>
    let fracPart := rest2.takeWhile Char.isDigit
    let rest3 := rest2.dropWhile Char.isDigit
    if intPart.isEmpty && fracPart.isEmpty then none
    else some ((digitsVal intPart : ℚ) + (digitsVal fracPart : ℚ) / (10 ^ fracPart.length), rest3)
  | _ =>
    if intPart.isEmpty then none else some ((digitsVal intPart : ℚ), rest)

/-- Parse an optional trailing exponent (`e`/`E`, optional sign, digits);
fails on any other trailing garbage, as Python `float` does. -/
def parseExp (q : ℚ) (cs : List Char) : Option ℚ :=
  match cs with
  | [] => some q
  | e :: rest =>
    if e = 'e' ∨ e = 'E' then
      let sr : ℤ × List Char :=
        match rest with
        | '+' :: r => (1, r)
        | '-' :: r => (-1, r)
        | r => (1, r)
      let ds := sr.2.takeWhile Char.isDigit
      let rest3 := sr.2.dropWhile Char.isDigit
      if ds.isEmpty ∨ ¬ rest3.isEmpty then none
      else some (q * (10 : ℚ) ^ (sr.1 * (digitsVal ds : ℤ)))
    else none

/-- Python `float(s)` on a string: optional sign, then either `nan`
(case-insensitive) or a decimal mantissa with optional exponent.
Simplifications that no result below depends on: surrounding whitespace,
digit-group underscores and `inf`/`infinity` literals are not modelled
(all rejected here). -/
def floatOfString (s : String) : Option PFloat :=
  let su : ℚ × List Char :=
    match s.data with
    | '+' :: r => (1, r)
    | '-' :: r => (-1, r)
    | r => (1, r)
  if su.2.map Char.toLower = ['n', 'a', 'n'] then some .nan
  else
    match parseUnsigned su.2 with
    | none => none
    | some (q, rest) =>
      match parseExp q rest with
      | none => none
      | some v => some (.val (su.1 * v))

/-- Python `float(v)` on an arbitrary value: numbers pass through, strings
go through the literal parser (raising on failure), every other type raises
`TypeError`. -/
def pyFloat (v : PyVal) : Except Unit PFloat :=
  match v with
  | .num q => .ok (.val q)
  | .nan => .ok .nan
  | .str s =>
    match floatOfString s with
    | some f => .ok f
    | none => .error ()
  | _ => .error ()

/-- `pd.isna` used as the condition of an `if`.  On scalars it yields a
boolean (`True` exactly for `None`/NaN-like values).  On a list it returns
an ndarray, whose use in `if` raises `ValueError` (certain for arrays of
size ≥ 2, which is the only list case any result below uses; the size-0/1
behaviour is numpy-version-dependent and modelled uniformly as raising). -/
def isna (v : PyVal) : Except Unit Bool :=
  match v with
  | .none => .ok true
  | .nan => .ok true
  | .list _ => .error ()
  | _ => .ok false

/-- Characters of the regex class `[\d\.]` (ASCII digits; the `re` module's
`\d` also admits non-ASCII digits, which no claim or input below uses). -/
def isDigitDot (c : Char) : Bool := c.isDigit || c = '.'

/-- Attempt to match the regex `POINT \(([\d\.]+) ([\d\.]+)\)` anchored at
the start of the character list, returning the two captured groups.
Because the class `[\d\.]` contains neither `' '` nor `')'`, the greedy
groups match exactly the maximal digit-dot runs and no backtracking arises,
so the match is deterministic. -/
def matchPointAt (s : List Char) : Option (List Char × List Char) :=
  match s with
  | 'P' :: 'O' :: 'I' :: 'N' :: 'T' :: ' ' :: '(' :: rest =>
    let g1 := rest.takeWhile isDigitDot
    if g1.isEmpty then none
    else
      match rest.dropWhile isDigitDot with
      | ' ' :: rest2 =>
        let g2 := rest2.takeWhile isDigitDot
        if g2.isEmpty then none
        else
          match rest2.dropWhile isDigitDot with
          | ')' :: _ => some (g1, g2)
          | _ => none
      | _ => none
  | _ => none

/-- `re.search` for the pattern above: try every start position from the
left, returning the first (leftmost) match. -/
def searchPoint (s : List Char) : Option (List Char × List Char) :=
  match s with
  | [] => none
  | c :: rest =>
    match matchPointAt (c :: rest) with
    | some r => some r
    | none => searchPoint rest

/-- `parse_geometry(data)` from `src/analysis.py`.
Case A: a list of length ≥ 2 — `float` both of the first two entries
(each conversion can raise).  Case B: a string — regex-search for
`POINT \(([\d\.]+) ([\d\.]+)\)` and `float` both groups on a match (again
possibly raising); no match falls through.  Case C: everything else (and
short lists, and unmatched strings) — the sentinel `(None, None)`. -/
def parse_geometry (data : PyVal) : Except Unit (Option PFloat × Option PFloat) :=
  match data with
  | .list (a :: b :: _) =>
    match pyFloat a with
    | .error e => .error e
    | .ok x =>
      match pyFloat b with
      | .error e => .error e
      | .ok y => .ok (some x, some y)
  | .str s =>
    match searchPoint s.data with
    | some (g1, g2) =>
      match floatOfString (String.mk g1) with
      | none => .error ()
      | some x =>
        match floatOfString (String.mk g2) with
        | none => .error ()
        | some y => .ok (some x, some y)
    | none => .ok (none, none)
  | _ => .ok (none, none)

/-- `get_epoch(year)` from `src/analysis.py`: `pd.isna` guard (which can
itself raise on array-like input), then `float(year)` inside
`try/except (ValueError, TypeError)`, then the ordinal comparison chain.
A NaN float falls through both comparisons into the `else` branch. -/
def get_epoch (year : PyVal) : Except Unit String :=
  match isna year with
  | .error e => .error e
  | .ok true => .ok "Unknown"
  | .ok false =>
    match pyFloat year with
    | .error _ => .ok "Unknown"
    | .ok .nan => .ok "Modern (> 1990)"
    | .ok (.val y) =>
      if y < 1960 then .ok "Heritage (< 1960)"
      else if 1960 ≤ y ∧ y < 1990 then .ok "Expansion (1960-1990)"
      else .ok "Modern (> 1990)"

/-- A row of the enriched DataFrame, restricted to the columns the
filtering/statistics step of `main` reads.  pandas stores these as float
columns in which `None` and NaN coincide, so a missing/NaN entry is
`Option.none` here and a finite float is `some q`. -/
structure Row where
  pflanzjahr : Option ℚ
  x_coord : Option ℚ
  y_coord : Option ℚ
deriving DecidableEq, Repr

/-- The boolean mask of `main`:
`(df.pflanzjahr > 1800) & (df.pflanzjahr <= 2025) & (df.x_coord.notna())`.
Elementwise comparisons against NaN are `False` in pandas, and `notna`
is `Option.isSome` in this model. -/
def cleanPred (r : Row) : Bool :=
  (match r.pflanzjahr with
   | some y => decide (1800 < y)
   | Option.none => false) &&
  (match r.pflanzjahr with
   | some y => decide (y ≤ 2025)
   | Option.none => false) &&
  r.x_coord.isSome

/-- `df_clean = df[mask].copy()`: boolean-mask filtering keeps exactly the
rows satisfying the mask, in order, without mutating the source. -/
def filterClean (df : List Row) : List Row := df.filter cleanPred

/-- `pd.Series.mean()`: NaN entries are skipped by the caller model (the
argument list holds the non-NaN entries) and the mean of an empty series
is NaN. -/
def seriesMean (l : List ℚ) : PFloat :=
  if l.isEmpty then .nan else .val (l.sum / (l.length : ℚ))

/-- Float subtraction: any NaN operand propagates. -/
def pfSub (a b : PFloat) : PFloat :=
  match a, b with
  | .val x, .val y => .val (x - y)
  | _, _ => .nan

/-- `avg_age = 2026 - df_clean['pflanzjahr'].mean()` from `main`
(the mean skips NaN entries, hence the `filterMap`). -/
def avg_age (df : List Row) : PFloat :=
  pfSub (.val 2026) (seriesMean (df.filterMap Row.pflanzjahr))

/-- Multiplicity of a value in a column. -/
def countVal (l : List String) (v : String) : ℕ :=
  (l.filter (fun x => x = v)).length

/-- The largest multiplicity attained in a column. -/
def modeCount (l : List String) : ℕ :=
  (l.map (countVal l)).foldr max 0

/-- Lexicographic comparison of strings by code point (how Python compares
the strings that `pd.Series.mode` sorts). -/
def strLe : List Char → List Char → Bool
  | [], _ => true
  | _ :: _, [] => false
  | a :: as, b :: bs => if a < b then true else if b < a then false else strLe as bs

/-- The smaller of two strings in code-point order. -/
def strMin (a b : String) : String := if strLe a.data b.data then a else b

/-- `pd.Series.mode()[0]`: among the values of maximal multiplicity,
`mode` returns them sorted ascending and `[0]` selects the smallest;
on an empty column the mode is empty and `[0]` raises `KeyError`,
modelled as `Option.none`. -/
def seriesMode (l : List String) : Option String :=
  match l.filter (fun v => countVal l v = modeCount l) with
  | [] => Option.none
  | x :: xs => some (xs.foldl strMin x)

/-- The species-name columns of `df_clean` as `main` sees them: a column
either exists (with its non-null values listed) or does not. -/
structure CleanFrame where
  hasLat : Bool
  hasDeu : Bool
  latCol : List String
  deuCol : List String
deriving DecidableEq, Repr

/-- The `top_species` fallback chain of `main`:
`baumnamelat` if that column exists, else `baumnamedeu`, else the literal
`"Unknown"`; `.mode()[0]` on an empty column raises. -/
def top_species (f : CleanFrame) : Except Unit String :=
  if f.hasLat then
    match seriesMode f.latCol with
    | some m => .ok m
    | Option.none => .error ()
  else if f.hasDeu then
    match seriesMode f.deuCol with
    | some m => .ok m
    | Option.none => .error ()
  else .ok "Unknown"

example : cleanPred ⟨some 1990, some 1, some 2⟩ = true := by
  norm_num [cleanPred]
example : cleanPred ⟨some 1800, some 1, some 2⟩ = false := by
  norm_num [cleanPred]
example : cleanPred ⟨some 2026, some 1, some 2⟩ = false := by
  norm_num [cleanPred]
example : cleanPred ⟨Option.none, some 1, some 2⟩ = false := by simp [cleanPred]
example : cleanPred ⟨some 1990, Option.none, Option.none⟩ = false := by simp [cleanPred]
example : avg_age [] = .nan := by simp [avg_age, seriesMean, pfSub]
example : avg_age [⟨some 2016, some 1, some 2⟩] = .val 10 := by
  norm_num [avg_age, seriesMean, pfSub, List.filterMap_cons]
example : seriesMode ["b", "a", "b", "c", "a"] = some "a" := by
  simp [seriesMode, countVal, modeCount, strMin, strLe]
example : top_species ⟨true, true, ["x", "y", "x"], ["z"]⟩ = .ok "x" := by
  simp [top_species, seriesMode, countVal, modeCount, strMin, strLe]
example : top_species ⟨false, true, [], ["z"]⟩ = .ok "z" := by
  simp [top_species, seriesMode, countVal, modeCount, strMin, strLe]
example : top_species ⟨false, false, [], []⟩ = .ok "Unknown" := by
  simp [top_species]
example : top_species ⟨true, false, [], []⟩ = .error () := by
  simp [top_species, seriesMode]

example : parse_geometry (.str "POINT (2683000.5 1248000.1)")
    = .ok (some (.val (26830005 / 10)), some (.val (124800010 / 100))) := by
  simp [parse_geometry, searchPoint, matchPointAt, isDigitDot, floatOfString,
    parseUnsigned, parseExp, digitsVal]
  norm_num
example : parse_geometry (.list [.num 1, .num 2]) = .ok (some (.val 1), some (.val 2)) := by
  simp [parse_geometry, pyFloat]
example : parse_geometry .none = .ok (none, none) := by simp [parse_geometry]
example : parse_geometry (.list []) = .ok (none, none) := by simp [parse_geometry]
example : parse_geometry (.str "Invalid") = .ok (none, none) := by
  simp [parse_geometry, searchPoint, matchPointAt]
example : parse_geometry (.list [.num 123]) = .ok (none, none) := by simp [parse_geometry]
example : parse_geometry (.list [.str "abc", .str "def"]) = .error () := by
  simp [parse_geometry, pyFloat, floatOfString, parseUnsigned, parseExp, digitsVal]
example : parse_geometry (.str "POINT (1.2.3 4)") = .error () := by
  simp [parse_geometry, searchPoint, matchPointAt, isDigitDot, floatOfString,
    parseUnsigned, parseExp, digitsVal]
example : parse_geometry (.str "xxPOINT (1 2)yy") = .ok (some (.val 1), some (.val 2)) := by
  simp [parse_geometry, searchPoint, matchPointAt, isDigitDot, floatOfString,
    parseUnsigned, parseExp, digitsVal]
example : parse_geometry (.str "POINT (-1.5 2)") = .ok (none, none) := by
  simp [parse_geometry, searchPoint, matchPointAt, isDigitDot]
example : get_epoch (.num 1950) = .ok "Heritage (< 1960)" := by
  simp [get_epoch, isna, pyFloat]; norm_num
example : get_epoch (.num 1960) = .ok "Expansion (1960-1990)" := by
  simp [get_epoch, isna, pyFloat]; norm_num
example : get_epoch (.num 1990) = .ok "Modern (> 1990)" := by
  simp [get_epoch, isna, pyFloat]; norm_num
example : get_epoch .nan = .ok "Unknown" := by simp [get_epoch, isna]
example : get_epoch (.str "Not a number") = .ok "Unknown" := by
  simp [get_epoch, isna, pyFloat, floatOfString, parseUnsigned, parseExp, digitsVal]
example : get_epoch (.str "nan") = .ok "Modern (> 1990)" := by
  simp [get_epoch, isna, pyFloat, floatOfString]
example : get_epoch (.list [.num 1, .num 2]) = .error () := by simp [get_epoch, isna]
example : floatOfString "-1.5" = some (.val (-(3 / 2))) := by
  simp [floatOfString, parseUnsigned, parseExp, digitsVal]; norm_num
example : floatOfString "1e3" = some (.val 1000) := by
  simp [floatOfString, parseUnsigned, parseExp, digitsVal]; norm_num
example : floatOfString "2.5e-1" = some (.val (1 / 4)) := by
  simp [floatOfString, parseUnsigned, parseExp, digitsVal]; norm_num

/-! ### Helper lemmas about the regex model -/

lemma takeWhile_append_block {p : Char → Bool} (a : List Char) (c : Char) (t : List Char)
    (ha : ∀ x ∈ a, p x = true) (hc : p c = false) :
    (a ++ c :: t).takeWhile p = a := by
  induction a with
  | nil => simp [List.takeWhile_cons, hc]
  | cons x xs ih =>
    have hx : p x = true := ha x (by simp)
    simp only [List.cons_append, List.takeWhile_cons, hx, if_true]
    rw [ih (fun y hy => ha y (by simp [hy]))]

lemma dropWhile_append_block {p : Char → Bool} (a : List Char) (c : Char) (t : List Char)
    (ha : ∀ x ∈ a, p x = true) (hc : p c = false) :
    (a ++ c :: t).dropWhile p = c :: t := by
  induction a with
  | nil => simp [List.dropWhile_cons, hc]
  | cons x xs ih =>
    have hx : p x = true := ha x (by simp)
    simp only [List.cons_append, List.dropWhile_cons, hx, if_true]
    exact ih (fun y hy => ha y (by simp [hy]))

lemma matchPointAt_block (a b t : List Char)
    (ha0 : a ≠ []) (ha1 : ∀ x ∈ a, isDigitDot x = true)
    (hb0 : b ≠ []) (hb1 : ∀ x ∈ b, isDigitDot x = true) :
    matchPointAt
        ('P' :: 'O' :: 'I' :: 'N' :: 'T' :: ' ' :: '(' :: (a ++ ' ' :: (b ++ ')' :: t)))
      = some (a, b) := by
  have hsp : isDigitDot ' ' = false := rfl
  have hrp : isDigitDot ')' = false := rfl
  have h1 := takeWhile_append_block a ' ' (b ++ ')' :: t) ha1 hsp
  have h2 := dropWhile_append_block a ' ' (b ++ ')' :: t) ha1 hsp
  have h3 := takeWhile_append_block b ')' t hb1 hrp
  have h4 := dropWhile_append_block b ')' t hb1 hrp
  simp only [matchPointAt, h1, h2, h3, h4]
  simp [List.isEmpty_iff, ha0, hb0]

lemma matchPointAt_nil : matchPointAt [] = Option.none := rfl

lemma searchPoint_of_head_match (s : List Char) (r : List Char × List Char)
    (hm : matchPointAt s = some r) : searchPoint s = some r := by
  cases s with
  | nil => rw [matchPointAt_nil] at hm; exact absurd hm (by simp)
  | cons c rest => rw [searchPoint, hm]

lemma searchPoint_append_of_no_match (u v : List Char)
    (h : ∀ j, j < u.length → matchPointAt ((u ++ v).drop j) = Option.none) :
    searchPoint (u ++ v) = searchPoint v := by
  induction u with
  | nil => simp
  | cons c u ih =>
    have h0 := h 0 (by simp)
    rw [List.drop_zero, List.cons_append] at h0
    rw [List.cons_append, searchPoint, h0]
    exact ih (fun j hj => by
      have := h (j + 1) (by simpa using Nat.succ_lt_succ hj)
      simpa using this)

lemma string_mk_data (s : String) : String.mk s.data = s := rfl

/-- The decomposition of the character data of a padded WKT point string. -/
lemma data_block (p q A B : String) :
    (p ++ "POINT (" ++ A ++ " " ++ B ++ ")" ++ q).data
      = p.data ++ ('P' :: 'O' :: 'I' :: 'N' :: 'T' :: ' ' :: '('
          :: (A.data ++ ' ' :: (B.data ++ ')' :: q.data))) := by
  simp only [String.data_append, List.append_assoc]
  rfl

/-- Core behaviour of `parse_geometry` on a string holding a matchable
`POINT (<run> <run>)` block at the first matchable position: it returns
`float` of the two captured runs (given that those conversions succeed). -/
lemma parse_geometry_block (p q A B : String) (fA fB : PFloat)
    (hA0 : A.data ≠ []) (hA1 : ∀ c ∈ A.data, isDigitDot c = true)
    (hB0 : B.data ≠ []) (hB1 : ∀ c ∈ B.data, isDigitDot c = true)
    (hfA : floatOfString A = some fA) (hfB : floatOfString B = some fB)
    (hNo : ∀ j, j < p.data.length →
      matchPointAt ((p ++ "POINT (" ++ A ++ " " ++ B ++ ")" ++ q).data.drop j) = Option.none) :
    parse_geometry (.str (p ++ "POINT (" ++ A ++ " " ++ B ++ ")" ++ q))
      = .ok (some fA, some fB) := by
  have hdata := data_block p q A B
  have hNo2 : ∀ j, j < p.data.length →
      matchPointAt ((p.data ++ ('P' :: 'O' :: 'I' :: 'N' :: 'T' :: ' ' :: '('
        :: (A.data ++ ' ' :: (B.data ++ ')' :: q.data)))).drop j) = Option.none := by
    intro j hj
    have := hNo j hj
    rwa [hdata] at this
  have hsearch : searchPoint (p ++ "POINT (" ++ A ++ " " ++ B ++ ")" ++ q).data
      = some (A.data, B.data) := by
    rw [hdata]
    rw [searchPoint_append_of_no_match _ _ hNo2]
    exact searchPoint_of_head_match _ _ (matchPointAt_block A.data B.data q.data hA0 hA1 hB0 hB1)
  simp only [parse_geometry, hsearch, string_mk_data, hfA, hfB]

/-! ### Claim theorems -/

/-- **C1** (code_bug evidence): `parse_geometry` is *not* total.  On the
two-element list `["abc", "def"]` the guard `isinstance(data, list) and
len(data) >= 2` passes and `float("abc")` raises `ValueError`, which the
function does not catch — contradicting its own docstring
("(None, None) if invalid") and the claim. -/
theorem C1_parse_geometry_raises_on_nonnumeric_list :
    parse_geometry (.list [.str "abc", .str "def"]) = .error () := by
  simp [parse_geometry, pyFloat, floatOfString, parseUnsigned, parseExp, digitsVal]

/-- **C2** (counterexample): `get_epoch` is not total over values of
arbitrary type: on a two-element list, `pd.isna` returns an ndarray and
using it as an `if` condition raises `ValueError`, outside the
`try/except`. -/
theorem C2_get_epoch_raises_on_list :
    get_epoch (.list [.num 1, .num 2]) = .error () := by
  simp [get_epoch, isna]

/-- **C2** (amended): for every *scalar* input — `None`, NaN, any number,
any string, any non-sequence object — `get_epoch` returns exactly one of
the four category strings and never raises. -/
theorem C2_get_epoch_total_on_scalars (v : PyVal) (h : ∀ l, v ≠ .list l) :
    ∃ s, get_epoch v = .ok s ∧
      (s = "Heritage (< 1960)" ∨ s = "Expansion (1960-1990)" ∨
       s = "Modern (> 1990)" ∨ s = "Unknown") := by
  cases v with
  | list l => exact absurd rfl (h l)
  | none => exact ⟨"Unknown", rfl, by simp⟩
  | nan => exact ⟨"Unknown", rfl, by simp⟩
  | other => exact ⟨"Unknown", rfl, by simp⟩
  | num q =>
    by_cases h1 : q < 1960
    · exact ⟨"Heritage (< 1960)", by simp [get_epoch, isna, pyFloat, h1], by simp⟩
    · by_cases h2 : q < 1990
      · refine ⟨"Expansion (1960-1990)", ?_, by simp⟩
        simp only [get_epoch, isna, pyFloat]
        rw [if_neg h1, if_pos ⟨le_of_not_lt h1, h2⟩]
      · exact ⟨"Modern (> 1990)", by
          simp only [get_epoch, isna, pyFloat]
          rw [if_neg h1, if_neg (fun hc => h2 hc.2)], by simp⟩
  | str s =>
    cases hf : floatOfString s with
    | none => exact ⟨"Unknown", by simp [get_epoch, isna, pyFloat, hf], by simp⟩
    | some f =>
      cases f with
      | nan => exact ⟨"Modern (> 1990)", by simp [get_epoch, isna, pyFloat, hf], by simp⟩
      | val q =>
        by_cases h1 : q < 1960
        · exact ⟨"Heritage (< 1960)", by simp [get_epoch, isna, pyFloat, hf, h1], by simp⟩
        · by_cases h2 : q < 1990
          · refine ⟨"Expansion (1960-1990)", ?_, by simp⟩
            simp only [get_epoch, isna, pyFloat, hf]
            rw [if_neg h1, if_pos ⟨le_of_not_lt h1, h2⟩]
          · exact ⟨"Modern (> 1990)", by
              simp only [get_epoch, isna, pyFloat, hf]
              rw [if_neg h1, if_neg (fun hc => h2 hc.2)], by simp⟩

/-- **C2** (witness for the amended theorem at a concrete scalar). -/
theorem C2_witness :
    ∃ s, get_epoch (.num 1959) = .ok s ∧
      (s = "Heritage (< 1960)" ∨ s = "Expansion (1960-1990)" ∨
       s = "Modern (> 1990)" ∨ s = "Unknown") :=
  C2_get_epoch_total_on_scalars (.num 1959) (fun _ h => PyVal.noConfusion h)

/-- **C5** (counterexample): the regex class `[\d\.]` has no sign or
exponent support, so the well-formed WKT string `"POINT (-1.5 2)"` — whose
coordinates are perfectly good Python float literals — is *not* parsed to
`(float("-1.5"), float("2"))` but falls through to the absent sentinel. -/
theorem C5_negative_literal_not_parsed :
    parse_geometry (.str "POINT (-1.5 2)") = .ok (Option.none, Option.none)
      ∧ floatOfString "-1.5" = some (.val (-(3 / 2))) := by
  constructor
  · simp [parse_geometry, searchPoint, matchPointAt, isDigitDot]
  · simp [floatOfString, parseUnsigned, parseExp, digitsVal]
    norm_num

/-- **C5** (amended): for every WKT string `"POINT (A B)"` whose
coordinates `A`, `B` are non-empty runs of digits and dots accepted by
Python `float` (so unsigned decimal literals — no sign, no exponent),
`parse_geometry` returns exactly `(float(A), float(B))`. -/
theorem C5_roundtrip (A B : String) (fA fB : PFloat)
    (hA0 : A.data ≠ []) (hA1 : ∀ c ∈ A.data, isDigitDot c = true)
    (hB0 : B.data ≠ []) (hB1 : ∀ c ∈ B.data, isDigitDot c = true)
    (hfA : floatOfString A = some fA) (hfB : floatOfString B = some fB) :
    parse_geometry (.str ("POINT (" ++ A ++ " " ++ B ++ ")"))
      = .ok (some fA, some fB) := by
  have h := parse_geometry_block "" "" A B fA fB hA0 hA1 hB0 hB1 hfA hfB
    (fun j hj => by simp at hj)
  rwa [String.empty_append, String.append_empty] at h

/-- **C5** (witness): `"POINT (2683000.5 1248000.1)"` parses back to
exactly the two literals' values. -/
theorem C5_witness :
    parse_geometry (.str ("POINT (" ++ "2683000.5" ++ " " ++ "1248000.1" ++ ")"))
      = .ok (some (.val (26830005 / 10)), some (.val (124800010 / 100))) :=
  C5_roundtrip "2683000.5" "1248000.1" (.val (26830005 / 10)) (.val (124800010 / 100))
    (by decide) (by decide) (by decide) (by decide)
    (by simp [floatOfString, parseUnsigned, parseExp, digitsVal]; norm_num)
    (by simp [floatOfString, parseUnsigned, parseExp, digitsVal]; norm_num)

/-- **C6**: `get_epoch` boundary semantics — the concrete boundary cases of
the claim, and the general lower-inclusive/upper-exclusive classification
of every numeric year. -/
theorem C6_epoch_boundaries :
    get_epoch (.num 1959) = .ok "Heritage (< 1960)"
  ∧ get_epoch (.num 1960) = .ok "Expansion (1960-1990)"
  ∧ get_epoch (.num 1989) = .ok "Expansion (1960-1990)"
  ∧ get_epoch (.num 1990) = .ok "Modern (> 1990)"
  ∧ get_epoch .none = .ok "Unknown"
  ∧ get_epoch .nan = .ok "Unknown"
  ∧ get_epoch (.str "not a number") = .ok "Unknown"
  ∧ (∀ y : ℚ, y < 1960 → get_epoch (.num y) = .ok "Heritage (< 1960)")
  ∧ (∀ y : ℚ, 1960 ≤ y → y < 1990 → get_epoch (.num y) = .ok "Expansion (1960-1990)")
  ∧ (∀ y : ℚ, 1990 ≤ y → get_epoch (.num y) = .ok "Modern (> 1990)") := by
  refine ⟨?_, ?_, ?_, ?_, rfl, rfl, ?_, ?_, ?_, ?_⟩
  · norm_num [get_epoch, isna, pyFloat]
  · norm_num [get_epoch, isna, pyFloat]
  · norm_num [get_epoch, isna, pyFloat]
  · norm_num [get_epoch, isna, pyFloat]
  · simp [get_epoch, isna, pyFloat, floatOfString, parseUnsigned, parseExp, digitsVal]
  · intro y hy
    simp only [get_epoch, isna, pyFloat]
    rw [if_pos hy]
  · intro y hy1 hy2
    simp only [get_epoch, isna, pyFloat]
    rw [if_neg (not_lt.mpr hy1), if_pos ⟨hy1, hy2⟩]
  · intro y hy
    simp only [get_epoch, isna, pyFloat]
    rw [if_neg (not_lt.mpr (by linarith)), if_neg (fun hc => absurd hy (not_le.mpr hc.2))]

/-- **C6** (witness): the general Heritage clause applied at year 1955. -/
theorem C6_witness : get_epoch (.num 1955) = .ok "Heritage (< 1960)" :=
  C6_epoch_boundaries.2.2.2.2.2.2.2.1 1955 (by norm_num)

/-- **C8**: whenever `parse_geometry` returns at all, its result is either
the full sentinel `(None, None)` or a full pair — the two components are
never partially present. -/
theorem C8_never_partial (v : PyVal) (r : Option PFloat × Option PFloat)
    (h : parse_geometry v = .ok r) :
    r = (Option.none, Option.none) ∨ ∃ a b, r = (some a, some b) := by
  cases v with
  | list l =>
    match l with
    | [] => simp only [parse_geometry, Except.ok.injEq] at h; exact Or.inl h.symm
    | [a] => simp only [parse_geometry, Except.ok.injEq] at h; exact Or.inl h.symm
    | a :: b :: rest =>
      cases hpa : pyFloat a with
      | error e =>
        rw [show parse_geometry (.list (a :: b :: rest)) = .error e by
          simp only [parse_geometry, hpa]] at h
        exact Except.noConfusion h
      | ok x =>
        cases hpb : pyFloat b with
        | error e =>
          rw [show parse_geometry (.list (a :: b :: rest)) = .error e by
            simp only [parse_geometry, hpa, hpb]] at h
          exact Except.noConfusion h
        | ok y =>
          simp only [parse_geometry, hpa, hpb, Except.ok.injEq] at h
          exact Or.inr ⟨x, y, h.symm⟩
  | str s =>
    cases hs : searchPoint s.data with
    | none => simp only [parse_geometry, hs, Except.ok.injEq] at h; exact Or.inl h.symm
    | some g =>
      obtain ⟨g1, g2⟩ := g
      cases hf1 : floatOfString (String.mk g1) with
      | none =>
        rw [show parse_geometry (.str s) = .error () by
          simp only [parse_geometry, hs, hf1]] at h
        exact Except.noConfusion h
      | some x =>
        cases hf2 : floatOfString (String.mk g2) with
        | none =>
          rw [show parse_geometry (.str s) = .error () by
            simp only [parse_geometry, hs, hf1, hf2]] at h
          exact Except.noConfusion h
        | some y =>
          simp only [parse_geometry, hs, hf1, hf2, Except.ok.injEq] at h
          exact Or.inr ⟨x, y, h.symm⟩
  | none => simp only [parse_geometry, Except.ok.injEq] at h; exact Or.inl h.symm
  | nan => simp only [parse_geometry, Except.ok.injEq] at h; exact Or.inl h.symm
  | num q => simp only [parse_geometry, Except.ok.injEq] at h; exact Or.inl h.symm
  | other => simp only [parse_geometry, Except.ok.injEq] at h; exact Or.inl h.symm

/-- **C8** (witness): the invariant applied to the result on an unmatched
string. -/
theorem C8_witness :
    ((Option.none, Option.none) : Option PFloat × Option PFloat)
        = (Option.none, Option.none)
      ∨ ∃ a b, ((Option.none, Option.none) : Option PFloat × Option PFloat)
        = (some a, some b) :=
  C8_never_partial (.str "no geometry here") (Option.none, Option.none)
    (by simp [parse_geometry, searchPoint, matchPointAt])

/-- **C10** (counterexample): on `"POINT (1.2.3 4)"` the first (indeed the
anchored) occurrence of the pattern has captured runs `"1.2.3"` and `"4"`,
but `float("1.2.3")` raises, so `parse_geometry` raises instead of
returning the claimed pair. -/
theorem C10_raises_on_multi_dot_run :
    parse_geometry (.str "POINT (1.2.3 4)") = .error ()
      ∧ floatOfString "1.2.3" = Option.none := by
  constructor
  · simp [parse_geometry, searchPoint, matchPointAt, isDigitDot, floatOfString,
      parseUnsigned, parseExp, digitsVal]
  · simp [floatOfString, parseUnsigned, parseExp, digitsVal]

/-- **C10** (amended): substring semantics of `parse_geometry` on strings.
If a string decomposes as `p ++ "POINT (A B)" ++ q` where `A` and `B` are
non-empty digit-dot runs, no match starts inside the prefix `p` (so this is
the first occurrence), and Python `float` accepts both captured runs, then
`parse_geometry` returns `(float(A), float(B))` — regardless of the
arbitrary surrounding text, i.e. matching is substring search, not a
full-string match. -/
theorem C10_substring_search (p q A B : String) (fA fB : PFloat)
    (hA0 : A.data ≠ []) (hA1 : ∀ c ∈ A.data, isDigitDot c = true)
    (hB0 : B.data ≠ []) (hB1 : ∀ c ∈ B.data, isDigitDot c = true)
    (hfA : floatOfString A = some fA) (hfB : floatOfString B = some fB)
    (hNo : ∀ j, j < p.data.length →
      matchPointAt ((p ++ "POINT (" ++ A ++ " " ++ B ++ ")" ++ q).data.drop j) = Option.none) :
    parse_geometry (.str (p ++ "POINT (" ++ A ++ " " ++ B ++ ")" ++ q))
      = .ok (some fA, some fB) :=
  parse_geometry_block p q A B fA fB hA0 hA1 hB0 hB1 hfA hfB hNo

/-- **C10** (witness): `"xPOINT (1.5 2)y"` — arbitrary text on both sides —
parses to `(1.5, 2.0)`. -/
theorem C10_witness :
    parse_geometry (.str ("x" ++ "POINT (" ++ "1.5" ++ " " ++ "2" ++ ")" ++ "y"))
      = .ok (some (.val (3 / 2)), some (.val 2)) :=
  C10_substring_search "x" "y" "1.5" "2" (.val (3 / 2)) (.val 2)
    (by decide) (by decide) (by decide) (by decide)
    (by simp [floatOfString, parseUnsigned, parseExp, digitsVal]; norm_num)
    (by simp [floatOfString, parseUnsigned, parseExp, digitsVal])
    (by
      intro j hj
      have hj0 : j = 0 := by simpa using hj
      subst hj0
      decide)

/-! ### Helper lemmas about filtering and the mode computation -/

lemma cleanPred_eq_true_iff (r : Row) :
    cleanPred r = true ↔
      (∃ y, r.pflanzjahr = some y ∧ 1800 < y ∧ y ≤ 2025) ∧ r.x_coord.isSome = true := by
  cases hp : r.pflanzjahr with
  | none => simp [cleanPred, hp]
  | some y => simp [cleanPred, hp, and_assoc]

lemma le_foldr_max (ns : List ℕ) (n : ℕ) (h : n ∈ ns) : n ≤ ns.foldr max 0 := by
  induction ns with
  | nil => cases h
  | cons a t ih =>
    rw [List.foldr_cons]
    rcases List.mem_cons.mp h with rfl | hmem
    · exact le_max_left _ _
    · exact le_trans (ih hmem) (le_max_right _ _)

lemma foldr_max_mem (ns : List ℕ) : ns.foldr max 0 = 0 ∨ ns.foldr max 0 ∈ ns := by
  induction ns with
  | nil => exact Or.inl rfl
  | cons a t ih =>
    rw [List.foldr_cons]
    rcases ih with h0 | hmem
    · rw [h0, Nat.max_zero]
      exact Or.inr (List.mem_cons_self a t)
    · rcases le_total a (t.foldr max 0) with hle | hle
      · rw [max_eq_right hle]
        exact Or.inr (List.mem_cons_of_mem a hmem)
      · rw [max_eq_left hle]
        exact Or.inr (List.mem_cons_self a t)

lemma countVal_pos (l : List String) (v : String) (h : v ∈ l) : 0 < countVal l v := by
  rw [countVal, List.length_pos]
  exact List.ne_nil_of_mem (List.mem_filter.mpr ⟨h, by simp⟩)

lemma countVal_le_modeCount (l : List String) (v : String) (h : v ∈ l) :
    countVal l v ≤ modeCount l :=
  le_foldr_max _ _ (List.mem_map_of_mem (countVal l) h)

lemma foldl_strMin_mem (xs : List String) (x : String) : xs.foldl strMin x ∈ x :: xs := by
  induction xs generalizing x with
  | nil => exact List.mem_singleton.mpr rfl
  | cons y ys ih =>
    rw [List.foldl_cons]
    rcases List.mem_cons.mp (ih (strMin x y)) with heq | hmem
    · rw [heq, strMin]
      split
      · exact List.mem_cons_self _ _
      · exact List.mem_cons_of_mem _ (List.mem_cons_self _ _)
    · exact List.mem_cons_of_mem _ (List.mem_cons_of_mem _ hmem)

/-- On a non-empty column, `mode()[0]` returns an element of the column
attaining the maximal multiplicity. -/
lemma seriesMode_spec (l : List String) (hne : l ≠ []) :
    ∃ m, seriesMode l = some m ∧ m ∈ l ∧ countVal l m = modeCount l := by
  have hatt : ∃ v, v ∈ l ∧ countVal l v = modeCount l := by
    rcases foldr_max_mem (l.map (countVal l)) with h0 | hmem
    · rcases l with _ | ⟨x, t⟩
      · exact absurd rfl hne
      · have hx : 0 < countVal (x :: t) x := countVal_pos _ _ (List.mem_cons_self x t)
        have hle := countVal_le_modeCount (x :: t) x (List.mem_cons_self x t)
        rw [modeCount, h0] at hle
        omega
    · rcases List.mem_map.mp hmem with ⟨v, hv, hveq⟩
      exact ⟨v, hv, hveq⟩
  obtain ⟨v, hv, hveq⟩ := hatt
  have hvfilter : v ∈ l.filter (fun w => countVal l w = modeCount l) :=
    List.mem_filter.mpr ⟨hv, by simp [hveq]⟩
  rcases hf : l.filter (fun w => countVal l w = modeCount l) with _ | ⟨x, xs⟩
  · rw [hf] at hvfilter; cases hvfilter
  · refine ⟨xs.foldl strMin x, ?_, ?_, ?_⟩
    · rw [seriesMode, hf]
    · have hmem2 : xs.foldl strMin x ∈ l.filter (fun w => countVal l w = modeCount l) := by
        rw [hf]; exact foldl_strMin_mem xs x
      exact (List.mem_filter.mp hmem2).1
    · have hmem2 : xs.foldl strMin x ∈ l.filter (fun w => countVal l w = modeCount l) := by
        rw [hf]; exact foldl_strMin_mem xs x
      simpa using (List.mem_filter.mp hmem2).2

/-- **C3** (counterexample): the two "reference years" of the code differ.
A tree planted in 2026 — the year the mean-age computation treats as
"age zero" — is rejected by the year filter, whose upper bound is the
distinct literal 2025.  Were one and the same reference year used in both
places, a record with age 0 and coordinates present would be included. -/
theorem C3_filter_bound_ne_age_minuend :
    cleanPred ⟨some 2026, some 1, some 1⟩ = false
      ∧ avg_age [⟨some 2026, some 1, some 1⟩] = .val 0 := by
  constructor
  · norm_num [cleanPred]
  · norm_num [avg_age, seriesMean, pfSub, List.filterMap_cons]

/-- **C3** (amended): both years are fixed configuration literals, but they
differ: the inclusion predicate uses `pflanzjahr ≤ 2025` while the mean-age
computation subtracts the mean from 2026. -/
theorem C3_two_distinct_literals (r : Row) (y : ℚ) (hy : r.pflanzjahr = some y)
    (hx : r.x_coord.isSome = true) :
    (cleanPred r = true ↔ 1800 < y ∧ y ≤ 2025)
  ∧ ∀ df : List Row, df.filterMap Row.pflanzjahr ≠ [] →
      avg_age df = .val (2026 - (df.filterMap Row.pflanzjahr).sum
        / ((df.filterMap Row.pflanzjahr).length : ℚ)) := by
  constructor
  · rw [cleanPred_eq_true_iff]
    simp [hy, hx]
  · intro df hne
    have hfalse : (df.filterMap Row.pflanzjahr).isEmpty = false := by
      simpa [List.isEmpty_iff] using hne
    simp [avg_age, seriesMean, pfSub, hfalse]

/-- **C3** (witness): the year filter accepts exactly up to 2025. -/
theorem C3_witness : cleanPred ⟨some 2025, some 1, some 1⟩ = true :=
  (C3_two_distinct_literals ⟨some 2025, some 1, some 1⟩ 2025 rfl rfl).1.mpr
    ⟨by norm_num, by norm_num⟩

/-- **C4** (counterexample): on the empty filtered collection the mean-age
computation yields the float NaN (`2026 - Series.mean()` of an empty
series), not an explicit undefined signal. -/
theorem C4_empty_mean_age_is_nan : avg_age [] = .nan := by
  simp [avg_age, seriesMean, pfSub]

/-- **C4** (amended): the mean-age result is the silently propagated NaN
exactly when the filtered collection carries no (non-NaN) planting year;
otherwise it is the finite value `2026 - mean`.  No explicit
optional/error signalling exists in the code. -/
theorem C4_nan_iff_no_years (df : List Row) :
    avg_age df = .nan ↔ df.filterMap Row.pflanzjahr = [] := by
  rcases h : df.filterMap Row.pflanzjahr with _ | ⟨a, t⟩ <;>
    simp [avg_age, seriesMean, pfSub, h]

/-- **C7**: a record (whose coordinate columns are jointly present or
jointly absent, as enrichment guarantees) survives the filter exactly when
its planting year is present with `1800 < year ≤ 2025` and its coordinate
is present; dropping any one condition excludes it. -/
theorem C7_filter_iff (df : List Row) (r : Row)
    (hxy : r.x_coord.isSome = r.y_coord.isSome) :
    r ∈ filterClean df ↔
      r ∈ df ∧ (∃ y, r.pflanzjahr = some y ∧ 1800 < y ∧ y ≤ 2025)
        ∧ r.x_coord.isSome = true ∧ r.y_coord.isSome = true := by
  rw [filterClean, List.mem_filter, cleanPred_eq_true_iff]
  constructor
  · rintro ⟨hmem, hy, hx⟩
    exact ⟨hmem, hy, hx, hxy.symm.trans hx⟩
  · rintro ⟨hmem, hy, hx, _⟩
    exact ⟨hmem, hy, hx⟩

/-- **C7** (witness): a fully valid record is kept. -/
theorem C7_witness :
    Row.mk (some 1990) (some 1) (some 2)
      ∈ filterClean [Row.mk (some 1990) (some 1) (some 2)] :=
  (C7_filter_iff [⟨some 1990, some 1, some 2⟩] ⟨some 1990, some 1, some 2⟩ rfl).mpr
    ⟨by simp, ⟨1990, rfl, by norm_num, by norm_num⟩, rfl, rfl⟩

/-- **C9**: `top_species` follows the fixed preference order — if the
`baumnamelat` column exists (and is non-empty, so that `mode()[0]` is
defined) its most frequent value is reported; otherwise `baumnamedeu` is
used the same way; with neither column the literal `"Unknown"` results. -/
theorem C9_top_species_preference (f : CleanFrame) :
    (f.hasLat = true → f.latCol ≠ [] →
      ∃ m, top_species f = .ok m ∧ m ∈ f.latCol
        ∧ ∀ v ∈ f.latCol, countVal f.latCol v ≤ countVal f.latCol m)
  ∧ (f.hasLat = false → f.hasDeu = true → f.deuCol ≠ [] →
      ∃ m, top_species f = .ok m ∧ m ∈ f.deuCol
        ∧ ∀ v ∈ f.deuCol, countVal f.deuCol v ≤ countVal f.deuCol m)
  ∧ (f.hasLat = false → f.hasDeu = false → top_species f = .ok "Unknown") := by
  refine ⟨?_, ?_, ?_⟩
  · intro hLat hne
    obtain ⟨m, hm, hmem, hcnt⟩ := seriesMode_spec f.latCol hne
    refine ⟨m, ?_, hmem, fun v hv => ?_⟩
    · rw [top_species, if_pos hLat, hm]
    · rw [hcnt]; exact countVal_le_modeCount _ v hv
  · intro hLat hDeu hne
    obtain ⟨m, hm, hmem, hcnt⟩ := seriesMode_spec f.deuCol hne
    refine ⟨m, ?_, hmem, fun v hv => ?_⟩
    · rw [top_species, if_neg (by simp [hLat]), if_pos hDeu, hm]
    · rw [hcnt]; exact countVal_le_modeCount _ v hv
  · intro hLat hDeu
    rw [top_species, if_neg (by simp [hLat]), if_neg (by simp [hDeu])]

/-- **C9** (witness): with only the Latin-name column present, its modal
value is reported. -/
theorem C9_witness :
    ∃ m, top_species ⟨true, false, ["Tilia"], []⟩ = .ok m ∧ m ∈ ["Tilia"]
      ∧ ∀ v ∈ ["Tilia"], countVal ["Tilia"] v ≤ countVal ["Tilia"] m :=
  (C9_top_species_preference ⟨true, false, ["Tilia"], []⟩).1 rfl (by simp)
